import Mathlib

/-!
Shallow embedding of the order-synchronization engine of the
`allegro_orders_backup` repository, covering:

* `app/services/deduplication_service.py`
* `app/services/order_protection_service.py`
* `app/services/data_monitoring_service.py`
* `app/services/order_sync_service.py` (incremental, event-feed strategy)
* `app/models/failed_order_processing.py` and the row models.

Modelling conventions:

* JSON documents are the inductive `Json` below.  Numbers are modelled as
  integers (`Int`); the repository only compares amounts and timestamps,
  and all timestamps (ISO strings parsed with `fromisoformat` in Python)
  are modelled as integer epoch seconds, so `"occurredAt"`-style values
  are `Json.num`.
* Database UUIDs are modelled as `Nat` surrogate keys; datetimes as `Int`.
* Python `dict.get` on a non-dict raises `AttributeError`; where a claim
  depends on such behaviour it is modelled explicitly with `Except PyErr`;
  on paths where every verified input carries an object (noted in the doc
  comments) the total `Json.get` is used.
* Revisions are opaque strings in the source (`Optional[str]`); an absent
  or empty revision is falsy in Python, modelled by `strTruthy`.
-/

/-- JSON value, as handled by the Python services.  Numeric leaves are
integers (see module header). -/
inductive Json where
  | null : Json
  | bool (b : Bool) : Json
  | num (n : Int) : Json
  | str (s : String) : Json
  | arr (elems : List Json) : Json
  | obj (fields : List (String × Json)) : Json

/-- Embeds `d.get(k)` on a JSON object: first binding of `k`, `none` when the key
is absent or the value is not an object. -/
def Json.get : Json → String → Option Json
  | .obj fs, k => fs.lookup k
  | _, _ => none

/-- Embeds `d.get(k, default)`. -/
def Json.getD (j : Json) (k : String) (d : Json) : Json :=
  (j.get k).getD d

/-- Python truthiness of a JSON value (`bool(x)`). -/
def Json.truthy : Json → Bool
  | .null => false
  | .bool b => b
  | .num n => n != 0
  | .str s => !s.isEmpty
  | .arr xs => !xs.isEmpty
  | .obj fs => !fs.isEmpty

/-- Embeds `bool(d.get(k))`: key present with a truthy value. -/
def Json.getBool (j : Json) (k : String) : Bool :=
  match j.get k with
  | some v => v.truthy
  | none => false

/-- Embeds `k in d`: key presence. -/
def Json.hasKey (j : Json) (k : String) : Bool :=
  (j.get k).isSome

/-- Replace-or-append a binding, as `d[k] = v` on a Python dict (insertion
order kept, existing key overwritten in place). -/
def setKey : List (String × Json) → String → Json → List (String × Json)
  | [], k, v => [(k, v)]
  | (k', v') :: rest, k, v =>
    if k' = k then (k, v) :: rest else (k', v') :: setKey rest k v

/-- Embeds `d[k] = v` on a JSON object (identity on non-objects; every store in
the verified runs is an object). -/
def Json.set : Json → String → Json → Json
  | .obj fs, k, v => .obj (setKey fs k v)
  | j, _, _ => j

/-- Truthiness of an optional string (`if s:` where `s : Optional[str]`). -/
def strTruthy : Option String → Bool
  | some s => !s.isEmpty
  | none => false

/-- Python exceptions distinguished by the services' handlers. -/
inductive PyErr where
  | dataIntegrity (msg : String)
  | attrError (msg : String)
  | typeError (msg : String)
deriving Repr, DecidableEq

/-- Embeds `.get(k)` as a Python method call: raises `AttributeError` when the
receiver is not a dict. -/
def pyAttrGet : Json → String → Except PyErr (Option Json)
  | .obj fs, k => .ok (fs.lookup k)
  | _, _ => .error (.attrError "get")

/-- Embeds `.get(k, default)` as a Python method call. -/
def pyAttrGetD (j : Json) (k : String) (d : Json) : Except PyErr Json :=
  (pyAttrGet j k).map (fun v => v.getD d)

/-- Python `len` (lists, dicts and strings; other values raise). -/
def pyLen : Json → Except PyErr Int
  | .arr xs => .ok xs.length
  | .obj fs => .ok fs.length
  | .str s => .ok s.length
  | _ => .error (.typeError "len")

/-- Python `float(x)` restricted to the shapes occurring in order
summaries: numbers pass through, numeric strings parse, everything else
raises (decimal amounts are modelled as integers, see module header). -/
def pyFloat : Json → Except PyErr Int
  | .num n => .ok n
  | .str s =>
    match s.toInt? with
    | some n => .ok n
    | none => .error (.typeError "float")
  | .bool b => .ok (if b then 1 else 0)
  | _ => .error (.typeError "float")

/-- Starts-with test on character lists. -/
def charsStartWith : List Char → List Char → Bool
  | [], _ => true
  | _ :: _, [] => false
  | a :: as, b :: bs => a == b && charsStartWith as bs

/-- Substring test on character lists. -/
def charsContains : List Char → List Char → Bool
  | needle, [] => needle.isEmpty
  | needle, h :: t => charsStartWith needle (h :: t) || charsContains needle t

/-- Embeds `needle in haystack` for strings (Python substring test). -/
def pyInStr (needle haystack : String) : Bool :=
  charsContains needle.data haystack.data

/-- Row of the `user_tokens` table (fields used by the sync engine). -/
structure UserTokenRow where
  tid : Nat
  user_id : String
  is_active : Bool
  expires_at : Int
deriving Repr, DecidableEq

/-- Row of the `orders` table (`app/models/order.py`): token, natural
Allegro id, full JSON payload, business date, soft-delete flag.  The
model defines no `buyer_data` / `line_items` / `total_price_*`
attributes; code reading them raises `AttributeError` (see
`orderAttrBuyerData`). -/
structure OrderRow where
  rid : Nat
  token_id : Nat
  allegro_order_id : String
  order_data : Json
  order_date : Int
  is_deleted : Bool
  updated_at : Int

/-- Row of the `order_events` table (`app/models/order_event.py`). -/
structure OrderEventRow where
  rid : Nat
  order_id : String
  token_id : Nat
  event_type : String
  occurred_at : Int
  event_data : Json
  event_id : Option String
  is_duplicate : Bool

/-- Row of the `failed_order_processing` table
(`app/models/failed_order_processing.py`). -/
structure FailedRow where
  rid : Nat
  order_id : String
  token_id : Nat
  error_type : String
  error_message : String
  action_required : String
  expected_revision : Option String
  status : String
  retry_count : Nat
  max_retries : Nat
  next_retry_at : Option Int
  last_retry_at : Option Int

/-- Row of the `sync_history` table (fields the orchestrator writes). -/
structure SyncHistRow where
  rid : Nat
  token_id : Nat
  sync_status : String
  orders_processed : Nat
  orders_added : Nat
  orders_updated : Nat

/-- The relational store: the four tables the sync engine touches, plus a
surrogate-key source for inserted rows. -/
structure Store where
  tokens : List UserTokenRow
  orders : List OrderRow
  events : List OrderEventRow
  failed : List FailedRow
  histories : List SyncHistRow
  nextId : Nat

/-- Result of a deduplication-gate check
(`DeduplicationService.should_process_order` / `should_process_event`). -/
structure GateDecision where
  should_process : Bool
  reason : String
deriving Repr, DecidableEq

/-- Embeds `DeduplicationService.should_process_order`: token must exist, then an
order is rejected iff a row with the same `(allegro_order_id, token_id)`
already exists (rows of other tokens are ignored; `is_deleted` is not
filtered). -/
def should_process_order (st : Store) (allegroOrderId : String) (tokenId : Nat) :
    GateDecision :=
  match st.tokens.find? (fun t => t.tid == tokenId) with
  | none => ⟨false, "Токен не найден"⟩
  | some _ =>
    match st.orders.find? (fun o =>
        o.allegro_order_id == allegroOrderId && o.token_id == tokenId) with
    | some _ => ⟨false, "Заказ уже существует для токена " ++ toString tokenId⟩
    | none => ⟨true, "Новый заказ для токена"⟩

/-- Embeds `DeduplicationService.should_process_event`: token must exist, then an
event is rejected iff a row with the same `(event_id, token_id)` already
exists. -/
def should_process_event (st : Store) (eventId : String) (tokenId : Nat) :
    GateDecision :=
  match st.tokens.find? (fun t => t.tid == tokenId) with
  | none => ⟨false, "Токен не найден"⟩
  | some _ =>
    match st.events.find? (fun e =>
        e.event_id == some eventId && e.token_id == tokenId) with
    | some _ => ⟨false, "Событие уже существует для токена " ++ toString tokenId⟩
    | none => ⟨true, "Новое событие для токена"⟩

/-- Embeds `OrderProtectionService._get_required_fields_for_structure`: events-API
payloads (a `checkoutForm` dict) need `checkoutForm.id`; payloads with a
root `id` key need `id`; otherwise any order id. -/
def getRequiredFieldsForStructure (data : Json) : List String :=
  match data.get "checkoutForm" with
  | some (.obj _) => ["checkout_form_id"]
  | _ => if data.hasKey "id" then ["id"] else ["order_id"]

/-- Embeds `OrderProtectionService._has_required_field`. -/
def hasRequiredField (data : Json) (field : String) : Bool :=
  if field = "checkout_form_id" then
    match data.getD "checkoutForm" (.obj []) with
    | .obj fs => Json.getBool (.obj fs) "id"
    | _ => false
  else if field = "id" then
    data.getBool "id"
  else if field = "order_id" then
    (match data.getD "checkoutForm" (.obj []) with
     | .obj fs => Json.getBool (.obj fs) "id"
     | _ => false) || data.getBool "id"
  else
    data.getBool field

/-- Embeds `OrderProtectionService._check_data_regression`: collects warning
strings (line-item shrinkage, lost buyer contact fields, changed total);
the caller only logs them.  Faithful to the chained `.get` calls, which
raise on non-dict intermediates, and to `float(...)`, which raises on
non-numeric amounts. -/
def checkDataRegression (newData : Json) (existing : OrderRow) :
    Except PyErr (List String) := do
  let existingData := if existing.order_data.truthy then existing.order_data else .obj []
  let exItems ← pyAttrGetD existingData "lineItems" (.arr [])
  let newItems ← pyAttrGetD newData "lineItems" (.arr [])
  let exCount ← pyLen exItems
  let newCount ← pyLen newItems
  let issues := if newCount < exCount then
      ["Количество товаров уменьшилось: " ++ toString exCount ++ " -> " ++ toString newCount]
    else []
  let exBuyer ← pyAttrGetD existingData "buyer" (.obj [])
  let newBuyer ← pyAttrGetD newData "buyer" (.obj [])
  let issues ← ["email", "firstName", "lastName"].foldlM (fun acc f => do
      let ev ← pyAttrGet exBuyer f
      let nv ← pyAttrGet newBuyer f
      if (ev.map Json.truthy).getD false && !((nv.map Json.truthy).getD false) then
        pure (acc ++ ["Потеряно поле покупателя: " ++ f])
      else pure acc) issues
  let exSummary ← pyAttrGetD existingData "summary" (.obj [])
  let exTtp ← pyAttrGetD exSummary "totalToPay" (.obj [])
  let exTotal ← pyAttrGet exTtp "amount"
  let newSummary ← pyAttrGetD newData "summary" (.obj [])
  let newTtp ← pyAttrGetD newSummary "totalToPay" (.obj [])
  let newTotal ← pyAttrGet newTtp "amount"
  match exTotal, newTotal with
  | some ev, some nv =>
    if ev.truthy && nv.truthy then do
      let ef ← pyFloat ev
      let nf ← pyFloat nv
      if nf ≠ ef then
        pure (issues ++ ["Изменилась сумма заказа: " ++ toString ef ++ " -> " ++ toString nf])
      else pure issues
    else pure issues
  | _, _ => pure issues

/-- Expected container type of a top-level payload field
(`isinstance` targets in `_validate_data_structure`). -/
inductive PyType where
  | dict
  | list
  | pstr
deriving DecidableEq

/-- Embeds `isinstance(v, t)` for the three container types used. -/
def jsonIsType : Json → PyType → Bool
  | .obj _, .dict => true
  | .arr _, .list => true
  | .str _, .pstr => true
  | _, _ => false

/-- The `expected_structure` whitelist of
`OrderProtectionService._validate_data_structure`. -/
def expectedStructure : List (String × PyType) :=
  [("buyer", .dict), ("lineItems", .list), ("marketplace", .dict),
   ("id", .pstr), ("status", .pstr), ("summary", .dict), ("revision", .pstr),
   ("delivery", .dict), ("payment", .dict), ("fulfillment", .dict),
   ("invoice", .dict), ("updatedAt", .pstr), ("note", .dict),
   ("messageToSeller", .pstr), ("surcharges", .list), ("discounts", .list),
   ("checkoutForm", .dict), ("seller", .dict)]

/-- Embeds `OrderProtectionService._validate_data_structure`: required-id check
(creation only), then type check of every present non-null whitelisted
field, then the `note.text` string check. -/
def validateDataStructure (data : Json) (isUpdate : Bool) : Bool :=
  let required := if isUpdate then [] else getRequiredFieldsForStructure data
  if required.any (fun f => !hasRequiredField data f) then false
  else if expectedStructure.any (fun ft =>
      match data.get ft.1 with
      | some .null => false
      | some v => !jsonIsType v ft.2
      | none => false) then false
  else
    match data.get "note" with
    | some (.obj fs) =>
      (match (Json.obj fs).get "text" with
       | some (.null) => true
       | some (.str _) => true
       | some _ => false
       | none => true)
    | _ => true

/-- Embeds `OrderProtectionService.validate_order_data_quality`: missing required
id is a `DataIntegrityError` for creation and only a warning for updates;
the regression check runs for updates (its result is only logged, but its
internal errors propagate); structural validation fails creation and only
warns for updates. -/
def validate_order_data_quality (newData : Json) (existing : Option OrderRow) :
    Except PyErr Bool := do
  let required := getRequiredFieldsForStructure newData
  let missing := required.filter (fun f => !hasRequiredField newData f)
  if !missing.isEmpty then
    if existing.isNone then
      throw (.dataIntegrity ("❌ Отсутствуют обязательные поля для создания: " ++
        String.intercalate ", " missing))
    else pure ()
  match existing with
  | some ex => do
    let _ ← checkDataRegression newData ex
    pure ()
  | none => pure ()
  if !validateDataStructure newData existing.isSome then
    if existing.isNone then return false
    else pure ()
  return true

/-- Embeds `existing_order.buyer_data` in `_merge_order_data`
(order_protection_service.py:311): the `Order` model
(`app/models/order.py`) defines no `buyer_data` attribute, so this
attribute access raises `AttributeError` at runtime. -/
def orderAttrBuyerData (_ : OrderRow) : Except PyErr Json :=
  .error (.attrError "Order object has no attribute buyer_data")

/-- Embeds `existing_order.line_items` in `_merge_order_data`
(order_protection_service.py:320): also not an attribute of the `Order`
model, raising `AttributeError`. -/
def orderAttrLineItems (_ : OrderRow) : Except PyErr Json :=
  .error (.attrError "Order object has no attribute line_items")

/-- Embeds `OrderProtectionService._merge_order_data`: start from the new
payload, backfill buyer contact fields from `existing_order.buyer_data`.
Reading `buyer_data` raises `AttributeError` (see `orderAttrBuyerData`),
so the merge never completes; the rest of the body is embedded for
completeness. -/
def merge_order_data (existing : OrderRow) (newData : Json) :
    Except PyErr Json := do
  let mergedData := newData
  let existingBuyer0 ← orderAttrBuyerData existing
  let existingBuyer := if existingBuyer0.truthy then existingBuyer0 else .obj []
  let newBuyer ← pyAttrGetD newData "buyer" (.obj [])
  let mergedData ← ["email", "firstName", "lastName", "phoneNumber"].foldlM
    (fun (acc : Json) f => do
      let ev ← pyAttrGet existingBuyer f
      let nv ← pyAttrGet newBuyer f
      if (ev.map Json.truthy).getD false && !((nv.map Json.truthy).getD false) then
        let b := acc.getD "buyer" (.obj [])
        pure (acc.set "buyer" (b.set f (ev.getD .null)))
      else pure acc) mergedData
  let existingItems0 ← orderAttrLineItems existing
  let existingItems := if existingItems0.truthy then existingItems0 else .arr []
  let newItems ← pyAttrGetD newData "lineItems" (.arr [])
  let _ ← pyLen existingItems
  let _ ← pyLen newItems
  pure mergedData

/-- Embeds `OrderProtectionService._update_existing_order`: embeds the revision
into the payload (update only), replaces the payload and timestamps; the
financial-summary block only reads the payload (the `total_price_*`
attributes it sets are not fields of the `Order` model). -/
def update_existing_order (o : OrderRow) (data : Json)
    (allegroRevision : Option String) (orderDate : Option Int) (now : Int) :
    Except PyErr OrderRow := do
  let data := match allegroRevision with
    | some r => if r.isEmpty then data else data.set "revision" (.str r)
    | none => data
  let summary ← pyAttrGetD data "summary" (.obj [])
  if summary.truthy then do
    let ttp ← pyAttrGetD summary "totalToPay" (.obj [])
    let amount ← pyAttrGetD ttp "amount" (.num 0)
    let _ ← pyFloat amount
    pure ()
  else pure ()
  pure { o with order_data := data, updated_at := now,
                order_date := orderDate.getD now }

/-- Embeds `OrderProtectionService._create_new_order`: inserts a fresh `Order`
row with the payload stored verbatim.  The `revision` parameter is
accepted but never used by the source (the summary locals it computes are
also unused). -/
def create_new_order (st : Store) (tokenId : Nat) (orderId : String)
    (data : Json) (_revision : Option String) (orderDate : Option Int)
    (now : Int) : Except PyErr Store := do
  let summary ← pyAttrGetD data "summary" (.obj [])
  let _ ← pyAttrGetD summary "totalToPay" (.obj [])
  let row : OrderRow :=
    { rid := st.nextId, token_id := tokenId, allegro_order_id := orderId,
      order_data := data, order_date := orderDate.getD now,
      is_deleted := false, updated_at := now }
  pure { st with orders := st.orders ++ [row], nextId := st.nextId + 1 }

/-- Replace an order row (matched by surrogate key) in the store. -/
def replaceOrder (st : Store) (o : OrderRow) : Store :=
  { st with orders := st.orders.map (fun r => if r.rid == o.rid then o else r) }

/-- Python `allegro_revision == existing_revision` where the left side is
a (truthy) string and the right side an arbitrary stored JSON value. -/
def jsonEqStr (v : Json) (s : String) : Bool :=
  match v with
  | .str s2 => s2 = s
  | _ => false

/-- Result dict of `OrderProtectionService.safe_order_update`. -/
structure UpdateResult where
  success : Bool
  action : String
  message : String
  order_id : String
deriving Repr, DecidableEq

/-- Embeds `OrderProtectionService.safe_order_update`.  Mirrors the source
line-by-line: falsy `order_id` short-circuits with `action="none"`; the
existing order is looked up by `allegro_order_id` alone (no token or
soft-delete filter — order_protection_service.py:246); validation;
optimistic-revision skip; merge + in-place update, or creation.  An
`Except.error` outcome models the raised exception after rollback, so the
store in that case is unchanged. -/
def safe_order_update (st : Store) (tokenId : Nat) (orderId : String)
    (newData : Json) (allegroRevision : Option String) (orderDate : Option Int)
    (now : Int) : Except PyErr (Store × UpdateResult) :=
  if orderId.isEmpty then
    .ok (st, ⟨false, "none", "order_id пустой или None: " ++ orderId, orderId⟩)
  else do
    let existing := st.orders.find? (fun o => o.allegro_order_id == orderId)
    let valid ← validate_order_data_quality newData existing
    if !valid then
      return (st, ⟨false, "none", "Данные не прошли валидацию качества", orderId⟩)
    let skip ← match existing with
      | some ex =>
        if strTruthy allegroRevision then do
          let exRev ← if ex.order_data.truthy then pyAttrGet ex.order_data "revision"
                      else pure none
          pure (match exRev with
            | some v => v.truthy && jsonEqStr v (allegroRevision.getD "")
            | none => false)
        else pure false
      | none => pure false
    if skip then
      return (st, ⟨true, "skipped",
        "Версия " ++ (allegroRevision.getD "") ++ " уже существует в базе", orderId⟩)
    match existing with
    | some ex => do
      let finalData ← merge_order_data ex newData
      let ex' ← update_existing_order ex finalData allegroRevision orderDate now
      return (replaceOrder st ex', ⟨true, "updated", "Заказ updated успешно", orderId⟩)
    | none => do
      let st' ← create_new_order st tokenId orderId newData allegroRevision orderDate now
      return (st', ⟨true, "created", "Заказ created успешно", orderId⟩)

/-- Per-event analysis result of
`DataMonitoringService._analyze_event_data_quality`. -/
structure EventQuality where
  has_missing_data : Bool
  has_regression : Bool
  critical_issues : List String
deriving Repr, DecidableEq

/-- Embeds `DataMonitoringService._analyze_event_data_quality`: required root
fields, empty buyer contact fields, empty line items.  Python formats the
offending field lists with their list repr; only string equality of the
produced issues is observable (deduplication and counting), so they are
rendered with comma-intercalation here. -/
def analyze_event_data_quality (eventData : Json) : Except PyErr EventQuality := do
  let d := if eventData.truthy then eventData else .obj []
  let missing ← ["id", "status", "buyer", "lineItems"].foldlM (fun acc f => do
      let v ← pyAttrGet d f
      pure (if (v.map Json.truthy).getD false then acc else acc ++ [f])) []
  let buyer ← pyAttrGetD d "buyer" (.obj [])
  let emptyBuyer ← ["email", "firstName"].foldlM (fun acc f => do
      let v ← pyAttrGet buyer f
      pure (if (v.map Json.truthy).getD false then acc else acc ++ [f])) []
  let lineItems ← pyAttrGetD d "lineItems" (.arr [])
  let n ← pyLen lineItems
  let crit :=
    (if missing.isEmpty then [] else
      ["Отсутствуют поля: " ++ String.intercalate ", " missing]) ++
    (if emptyBuyer.isEmpty then [] else
      ["Пустые поля покупателя: " ++ String.intercalate ", " emptyBuyer]) ++
    (if lineItems.truthy then [] else ["Отсутствуют товары в заказе"])
  pure ⟨!missing.isEmpty || !emptyBuyer.isEmpty, n == 0, crit⟩

/-- Embeds `DataMonitoringService._calculate_anomaly_score`: weighted sum capped
at 1.0 (thresholds 20%/10% missing, 15%/5% regression, volume floor 10). -/
def calculate_anomaly_score (missingRatio regressionRatio : ℚ)
    (totalOrders : Int) : ℚ :=
  let s : ℚ := 0
  let s := if missingRatio ≥ 20/100 then s + 4/10
           else if missingRatio ≥ 10/100 then s + 2/10 else s
  let s := if regressionRatio ≥ 15/100 then s + 4/10
           else if regressionRatio ≥ 5/100 then s + 2/10 else s
  let s := if totalOrders < 10 then s + 3/10 else s
  min s 1

/-- The `DataHealthMetrics` dataclass. -/
structure HealthMetrics where
  total_orders : Int
  orders_with_issues : Int
  data_regression_ratio : ℚ
  missing_data_ratio : ℚ
  anomaly_score : ℚ
  last_successful_sync : Int
  critical_issues : List String
deriving Repr, DecidableEq

/-- Embeds `DataMonitoringService.check_data_health`: scans every `OrderEvent`
row (all tokens) whose `occurred_at` is within the window, aggregates the
per-event analyses, and deduplicates the critical-issue strings
(`list(set(...))`; only membership and length of that list are observable,
modelled by `eraseDups`). -/
def check_data_health (events : List OrderEventRow) (windowHours : Int)
    (now : Int) : Except PyErr HealthMetrics := do
  let window := events.filter (fun e => now - windowHours * 3600 ≤ e.occurred_at)
  let acc ← window.foldlM (fun (acc : Int × Int × Int × List String) e => do
      let q ← analyze_event_data_quality e.event_data
      pure (acc.1 + (if q.critical_issues.isEmpty then 0 else 1),
            acc.2.1 + (if q.has_regression then 1 else 0),
            acc.2.2.1 + (if q.has_missing_data then 1 else 0),
            acc.2.2.2 ++ q.critical_issues)) ((0 : Int), (0 : Int), (0 : Int), ([] : List String))
  let totalOrders : Int := window.length
  let missingRatio : ℚ := if totalOrders > 0 then (acc.2.2.1 : ℚ) / (totalOrders : ℚ) else 0
  let regressionRatio : ℚ := if totalOrders > 0 then (acc.2.1 : ℚ) / (totalOrders : ℚ) else 0
  let syncEvs := events.filter (fun e => e.event_type == "ORDER_SYNC")
  let lastSync := match syncEvs with
    | [] => now - 365 * 86400
    | e0 :: rest => rest.foldl (fun m e => max m e.occurred_at) e0.occurred_at
  pure { total_orders := totalOrders, orders_with_issues := acc.1,
         data_regression_ratio := regressionRatio,
         missing_data_ratio := missingRatio,
         anomaly_score := calculate_anomaly_score missingRatio regressionRatio totalOrders,
         last_successful_sync := lastSync,
         critical_issues := acc.2.2.2.eraseDups }

/-- Embeds `DataMonitoringService.should_pause_sync`: health over the last hour;
pause iff anomaly score ≥ 0.9, or missing-data ratio ≥ 0.5, or at least
10 (distinct) critical issues. -/
def should_pause_sync (st : Store) (now : Int) : Except PyErr Bool :=
  (check_data_health st.events 1 now).map (fun m =>
    decide ((9 : ℚ)/10 ≤ m.anomaly_score) ||
    decide ((1 : ℚ)/2 ≤ m.missing_data_ratio) ||
    decide (10 ≤ m.critical_issues.length))

/-- One element of the list `sync_orders_safe` iterates over: the wrapper
dict built by `_fetch_order_events_safe` (`event`/`order`/`order_id`/
`source` keys) or by `_fetch_orders_by_date` / the detail-fetch path
(`order`/`order_id`/`source`, no `event` key — modelled as `none`). -/
structure SyncItem where
  event : Option Json
  order : Json
  order_id : Option String
  source : String

/-- Embeds `DataMonitoringService._validate_event_structure`: events-API items
need an `event` value with `id` and `type` keys; checkout-forms /
full-detail items need a truthy `order` dict with the six key order
fields; internal Python errors are caught and yield `false`. -/
def validate_event_structure (item : SyncItem) (source : String) : Bool :=
  if source = "events_api" then
    match item.event with
    | some e => e.hasKey "id" && e.hasKey "type"
    | none => false
  else if source = "checkout_forms_api" || source = "full_api_details" then
    match item.order with
    | .obj fs =>
      Json.truthy (.obj fs) &&
      ["id", "status", "buyer", "lineItems", "delivery", "fulfillment"].all
        (fun f => Json.getBool (.obj fs) f)
    | _ => false
  else false

/-- Embeds `DataMonitoringService._extract_order_id_safe`: the wrapper's
`order_id` value for the known sources, `None` otherwise. -/
def extract_order_id_safe (item : SyncItem) (source : String) : Option String :=
  if source = "events_api" || source = "checkout_forms_api" ||
     source = "full_api_details" then item.order_id
  else none

/-- Embeds `DataMonitoringService._validate_order_data_quality` (the
batch-anomaly variant): events-API items need a truthy `checkoutForm`
with id plus buyer and line items; the other sources need id, status,
buyer and line items; internal Python errors yield `false`. -/
def validate_order_data_quality_evt (item : SyncItem) (source : String) : Bool :=
  if source = "events_api" then
    match item.order with
    | .obj fs =>
      Json.truthy (.obj fs) &&
      (match (Json.obj fs).get "checkoutForm" with
       | some (.obj cf) => Json.truthy (.obj cf) && Json.getBool (.obj cf) "id"
       | _ => false) &&
      Json.getBool (.obj fs) "buyer" && Json.getBool (.obj fs) "lineItems"
    | _ => false
  else if source = "checkout_forms_api" || source = "full_api_details" then
    match item.order with
    | .obj fs =>
      Json.truthy (.obj fs) && Json.getBool (.obj fs) "id" &&
      Json.getBool (.obj fs) "status" && Json.getBool (.obj fs) "buyer" &&
      Json.getBool (.obj fs) "lineItems"
    | _ => false
  else false

/-- Accumulated per-source statistics of
`DataMonitoringService.detect_data_anomalies`. -/
structure DetectStats where
  evCount : Nat
  evIds : List String
  evOrderIds : List String
  cfCount : Nat
  cfOrderCounts : List (String × Nat)
  otherCount : Nat
  missing : Nat
  malformed : Nat

/-- Increment the per-order counter dict
(`checkout_forms_stats["order_ids"]`). -/
def bumpCount : List (String × Nat) → String → List (String × Nat)
  | [], k => [(k, 1)]
  | (k', c) :: rest, k =>
    if k' = k then (k', c + 1) :: rest else (k', c) :: bumpCount rest k

/-- Ratio rendered as a percentage (Python `f"{r:.1%}"`; only the
substring structure of the anomaly messages is observable). -/
def pctStr (q : ℚ) : String := toString (100 * q) ++ "%"

/-- Embeds `DataMonitoringService.detect_data_anomalies`: the per-batch anomaly
pass.  Event-feed duplicates are keyed by event id, checkout-forms
duplicates by order id; missing-data ratios above 10%/20% produce the
warning / `❌ КРИТИЧНО` messages (strict `>` in the source); malformed
ratio above 5%; order-id diversity checked only for checkout-forms items.
Event ids are strings in every verified input (non-string ids are not
modelled). -/
def detect_data_anomalies (items : List SyncItem) : List String :=
  if items.isEmpty then ["⚠️ Получен пустой список событий заказов"]
  else
    let stats := items.foldl (fun (st : DetectStats) item =>
      let source := item.source
      if !validate_event_structure item source then
        { st with malformed := st.malformed + 1 }
      else
        match extract_order_id_safe item source with
        | none => { st with missing := st.missing + 1 }
        | some oid =>
          if oid.isEmpty then { st with missing := st.missing + 1 }
          else
            let st :=
              if source = "events_api" then
                let evInfo := item.event.getD (.obj [])
                let st := { st with evCount := st.evCount + 1,
                                    evOrderIds := st.evOrderIds ++ [oid] }
                match evInfo.get "id" with
                | some (.str s) => if s.isEmpty then st else { st with evIds := st.evIds ++ [s] }
                | _ => st
              else if source = "checkout_forms_api" || source = "full_api_details" then
                { st with cfCount := st.cfCount + 1,
                          cfOrderCounts := bumpCount st.cfOrderCounts oid }
              else { st with otherCount := st.otherCount + 1 }
            if !validate_order_data_quality_evt item source then
              { st with missing := st.missing + 1 }
            else st)
      ⟨0, [], [], 0, [], 0, 0, 0⟩
    let total := items.length
    let uniqEv := stats.evIds.eraseDups.length
    let a1 := if stats.evCount > 0 && uniqEv < stats.evCount then
        ["⚠️ Обнаружено " ++ toString (stats.evCount - uniqEv) ++
         " дублированных событий (по event_id) из " ++ toString stats.evCount]
      else []
    let cfDups := stats.cfOrderCounts.filter (fun p => p.2 > 1)
    let a2 := if cfDups.isEmpty then [] else
        ["⚠️ Обнаружено " ++ toString (cfDups.foldl (fun a p => a + p.2) 0 - cfDups.length) ++
         " дублированных заказов в Checkout Forms API"]
    let missingRatio : ℚ := (stats.missing : ℚ) / (total : ℚ)
    let a3 := if missingRatio > 10/100 then
        ["⚠️ " ++ pctStr missingRatio ++ " событий имеют неполные данные"]
      else []
    let a4 := if missingRatio > 20/100 then
        ["❌ КРИТИЧНО: " ++ pctStr missingRatio ++ " событий с серьезными проблемами данных"]
      else []
    let malformedRatio : ℚ := (stats.malformed : ℚ) / (total : ℚ)
    let a5 := if malformedRatio > 5/100 then
        ["❌ " ++ pctStr malformedRatio ++ " событий имеют некорректную структуру"]
      else []
    let uniqCf := stats.cfOrderCounts.length
    let a6 := if stats.cfCount > 0 && (uniqCf : ℚ) < (stats.cfCount : ℚ) * (1/2) then
        ["⚠️ Низкое разнообразие в Checkout Forms API: " ++ toString uniqCf ++
         " уникальных из " ++ toString stats.cfCount ++ " заказов"]
      else []
    a1 ++ a2 ++ a3 ++ a4 ++ a5 ++ a6

/-- The backoff table of `FailedOrderProcessing.calculate_next_retry`
(minutes). -/
def backoffMinutes : List Int := [1, 5, 15, 60, 240]

/-- Embeds `FailedOrderProcessing.calculate_next_retry`: backoff table indexed by
the row's current `retry_count`, clamped to 240 minutes beyond the table;
offset from the moment of the call. -/
def calculate_next_retry (r : FailedRow) (now : Int) : Int :=
  now + ((backoffMinutes.get? r.retry_count).getD 240) * 60

/-- Embeds `FailedOrderProcessing.can_retry`. -/
def can_retry (r : FailedRow) (now : Int) : Bool :=
  (r.status == "pending" || r.status == "retrying") &&
  r.retry_count < r.max_retries &&
  (match r.next_retry_at with
   | none => true
   | some t => t ≤ now)

/-- Embeds `FailedOrderProcessing.mark_for_retry`: increments `retry_count`
first; at `max_retries` the row is abandoned and `next_retry_at` cleared,
otherwise it returns to `pending` with the next backoff computed from the
(already incremented) `retry_count`. -/
def mark_for_retry (r : FailedRow) (errMsg errType : String) (now : Int) :
    FailedRow :=
  let r := { r with retry_count := r.retry_count + 1, error_message := errMsg,
                    error_type := errType, last_retry_at := some now }
  if r.max_retries ≤ r.retry_count then
    { r with status := "abandoned", next_retry_at := none }
  else
    { r with status := "pending", next_retry_at := some (calculate_next_retry r now) }

/-- Embeds `FailedOrderProcessing.mark_resolved` (the `resolved_at` stamp is not
modelled; no claim reads it). -/
def mark_resolved (r : FailedRow) : FailedRow :=
  { r with status := "resolved", next_retry_at := none }

/-- Response of one attempt against the order-detail endpoint. -/
inductive DetailResp where
  | ok (data : Json)
  | httpStatus (code : Nat)
  | netErr

/-- The upstream Allegro API as seen by one sync run: the event-statistics
endpoint (`None` models any failed call), the event feed keyed by the
`from` cursor, and the per-attempt detail endpoint. -/
structure UpstreamApi where
  eventStats : Option (String × Int)
  listEvents : Option String → List Json
  orderDetails : String → Nat → DetailResp

/-- The token query repeated in `_fetch_order_events_safe`,
`_get_current_event_point_from_api` and `_get_order_details_from_api`:
id, owner, active, unexpired. -/
def findValidToken (st : Store) (userId : String) (tokenId : Nat) (now : Int) :
    Option UserTokenRow :=
  st.tokens.find? (fun t =>
    t.tid == tokenId && t.user_id == userId && t.is_active && now < t.expires_at)

/-- Embeds `OrderSyncService._extract_order_id_from_event`: `order.checkoutForm.id`
(order ids are strings in every verified input). -/
def extract_order_id_from_event (e : Json) : Option String :=
  let od := e.getD "order" (.obj [])
  if od.truthy then
    match od.getD "checkoutForm" (.obj []) with
    | .obj cf =>
      match (Json.obj cf).get "id" with
      | some (.str s) => some s
      | _ => none
    | _ => none
  else none

/-- Embeds `OrderSyncService._save_starting_point_event`: the synthetic
`SYNC_STARTING_POINT` event row persisting the cursor obtained from the
statistics endpoint. -/
def save_starting_point_event (st : Store) (tokenId : Nat) (eid : String)
    (occurredAt : Int) (now : Int) : Store :=
  let row : OrderEventRow :=
    { rid := st.nextId, order_id := "SYNC_STARTING_POINT", token_id := tokenId,
      event_type := "SYNC_STARTING_POINT",
      occurred_at := occurredAt,
      event_data := .obj [("event_id", .str eid),
        ("purpose", .str "starting_point_for_incremental_sync"),
        ("created_at", .num now),
        ("source", .str "allegro_events_statistics_api")],
      event_id := some eid, is_duplicate := false }
  { st with events := st.events ++ [row], nextId := st.nextId + 1 }

/-- Embeds `OrderSyncService._get_last_event_id_from_db`: newest event of the
token carrying an `event_id`; on a fresh token the statistics endpoint is
queried (one upstream call, recorded in the trace) and its cursor saved
as the starting-point event. -/
def get_last_event_id_from_db (st : Store) (api : UpstreamApi) (tokenId : Nat)
    (now : Int) : Store × Option String × List String :=
  let cands := st.events.filter (fun e => e.token_id == tokenId && e.event_id.isSome)
  let lastEvent := cands.foldl (fun acc e =>
    match acc with
    | none => some e
    | some b => if b.occurred_at < e.occurred_at then some e else acc) none
  match lastEvent with
  | some e =>
    if strTruthy e.event_id then (st, e.event_id, [])
    else
      match api.eventStats with
      | some (eid, t) => (save_starting_point_event st tokenId eid t now, some eid, ["event-stats"])
      | none => (st, none, ["event-stats"])
  | none =>
    match api.eventStats with
    | some (eid, t) => (save_starting_point_event st tokenId eid t now, some eid, ["event-stats"])
    | none => (st, none, ["event-stats"])

/-- Embeds `OrderSyncService._fetch_order_events_safe`: token check, one event
listing call, optional `sync_to_date` filter (a non-numeric `occurredAt`
would raise during parsing and the enclosing handler returns the empty
list), then wrapping each raw event into the processing dict. -/
def fetch_order_events_safe (st : Store) (api : UpstreamApi) (userId : String)
    (tokenId : Nat) (now : Int) (fromEventId : Option String)
    (syncToDate : Option Int) : List SyncItem × List String :=
  match findValidToken st userId tokenId now with
  | none => ([], [])
  | some _ =>
    let raw := api.listEvents fromEventId
    let filtered : Option (List Json) :=
      match syncToDate with
      | none => some raw
      | some d =>
        if raw.any (fun e =>
            match e.get "occurredAt" with
            | some (.num _) => false
            | some _ => true
            | none => false) then none
        else some (raw.filter (fun e =>
          match e.get "occurredAt" with
          | some (.num t) => t ≤ d
          | _ => true))
    match filtered with
    | none => ([], ["events"])
    | some evs =>
      (evs.map (fun e =>
        { event := some e, order := e.getD "order" (.obj []),
          order_id := extract_order_id_from_event e, source := "events_api" }),
       ["events"])

/-- Embeds `OrderSyncService._check_order_needs_update`: the revision
short-circuit, scoped to `(order_id, token_id)` with `is_deleted = False`
(unlike the lookup inside `safe_order_update`); any internal error falls
back to `"create"`. -/
def check_order_needs_update (st : Store) (tokenId : Nat) (orderId : String)
    (newRevision : String) : String :=
  match st.orders.find? (fun o =>
      o.allegro_order_id == orderId && o.token_id == tokenId && !o.is_deleted) with
  | none => "create"
  | some o =>
    let od := if o.order_data.truthy then o.order_data else .obj []
    match pyAttrGet od "revision" with
    | .error _ => "create"
    | .ok cur =>
      match cur with
      | some (.str s) => if s = newRevision then "skip" else "update"
      | _ => "update"

/-- The `for attempt in range(max_retries)` loop of
`OrderSyncService._get_order_details_from_api`: a 2xx body returns it, a
404 returns `None` at once, transient statuses (429/5xx) and network
errors retry while attempts remain, any other status (401/403 included)
returns `None` at once.  Returns the fetched body and the number of
attempts performed.  `fuel` counts the remaining loop iterations. -/
def detailLoop (api : UpstreamApi) (oid : String) (maxRetries : Nat) :
    Nat → Option Json × Nat
  | 0 => (none, maxRetries)
  | fuel + 1 =>
    let attempt := maxRetries - (fuel + 1)
    match api.orderDetails oid attempt with
    | .ok d => (some d, attempt + 1)
    | .netErr =>
      if fuel > 0 then detailLoop api oid maxRetries fuel else (none, attempt + 1)
    | .httpStatus c =>
      if c = 404 then (none, attempt + 1)
      else if c = 429 || c = 500 || c = 502 || c = 503 || c = 504 then
        if fuel > 0 then detailLoop api oid maxRetries fuel else (none, attempt + 1)
      else (none, attempt + 1)

/-- Embeds `OrderSyncService._get_order_details_from_api` (default
`max_retries = 3`): token check, then the bounded retry loop. -/
def get_order_details_from_api (st : Store) (api : UpstreamApi)
    (userId : String) (tokenId : Nat) (now : Int) (oid : String) :
    Option Json × Nat :=
  match findValidToken st userId tokenId now with
  | none => (none, 0)
  | some _ => detailLoop api oid 3 3

/-- Replace a failed-order row (matched by surrogate key). -/
def replaceFailed (st : Store) (f : FailedRow) : Store :=
  { st with failed := st.failed.map (fun r => if r.rid == f.rid then f else r) }

/-- Embeds `OrderSyncService._save_failed_order`: upsert keyed on
`(order_id, token_id)` over pending/retrying rows; an existing row is
bumped through `mark_for_retry`, a fresh row starts at `retry_count = 0`
with the first retry one minute out (the serialized `event_data` blob is
not modelled; no claim reads it). -/
def save_failed_order (st : Store) (tokenId : Nat) (orderId : String)
    (actionRequired errMsg errType : String) (expectedRevision : Option String)
    (now : Int) : Store :=
  match st.failed.find? (fun f =>
      f.order_id == orderId && f.token_id == tokenId &&
      (f.status == "pending" || f.status == "retrying")) with
  | some ex =>
    let ex := mark_for_retry ex errMsg errType now
    let ex := if strTruthy expectedRevision then
        { ex with expected_revision := expectedRevision } else ex
    replaceFailed st ex
  | none =>
    let row : FailedRow :=
      { rid := st.nextId, order_id := orderId, token_id := tokenId,
        error_type := errType, error_message := errMsg,
        action_required := actionRequired, expected_revision := expectedRevision,
        status := "pending", retry_count := 0, max_retries := 5,
        next_retry_at := some (now + 60), last_retry_at := none }
    { st with failed := st.failed ++ [row], nextId := st.nextId + 1 }

/-- Embeds `OrderSyncService._save_all_events_to_db`: unconditional audit insert
of the raw event (rows lacking an order id would violate the NOT NULL
column and be rolled back; every verified input carries one). -/
def save_all_events_to_db (st : Store) (tokenId : Nat) (item : SyncItem)
    (now : Int) : Store :=
  let evInfo := item.event.getD (.obj [])
  let occurred := match evInfo.get "occurredAt" with
    | some (.num t) => t
    | _ => now
  let row : OrderEventRow :=
    { rid := st.nextId, order_id := (item.order_id.getD ""),
      token_id := tokenId,
      event_type := (match evInfo.get "type" with
        | some (.str s) => s
        | _ => "UNKNOWN"),
      occurred_at := occurred, event_data := evInfo,
      event_id := (match evInfo.get "id" with
        | some (.str s) => some s
        | _ => none),
      is_duplicate := false }
  { st with events := st.events ++ [row], nextId := st.nextId + 1 }

/-- The result dict of `OrderSyncService.sync_orders_safe`. -/
structure SyncResult where
  success : Bool
  sync_type : String
  orders_processed : Nat
  orders_created : Nat
  orders_updated : Nat
  orders_skipped : Nat
  orders_failed : Nat
  orders_deduplicated : Nat
  events_saved : Nat
  events_deduplicated : Nat
  data_quality_score : ℚ
  critical_issues : List String
  warnings : List String
  paused_due_to_anomalies : Bool
deriving Repr, DecidableEq

/-- The freshly initialised result dict. -/
def initSyncResult (syncType : String) : SyncResult :=
  ⟨false, syncType, 0, 0, 0, 0, 0, 0, 0, 0, 0, [], [], false⟩

/-- Message of a Python exception (`str(e)`). -/
def pyErrStr : PyErr → String
  | .dataIntegrity m => m
  | .attrError m => m
  | .typeError m => m

/-- Counter bookkeeping shared by both loop branches after
`_process_single_order_safe` returns or raises: processed/created/updated/
skipped on success, `DataIntegrityError` also records the message in
`critical_issues`, any other exception only counts a failure. -/
def countProcessed (st : Store) (res : SyncResult)
    (out : Except PyErr (Store × UpdateResult)) : Store × SyncResult :=
  match out with
  | .ok (st', r) =>
    let res := { res with orders_processed := res.orders_processed + 1 }
    let res :=
      if r.action == "created" then
        { res with orders_created := res.orders_created + 1 }
      else if r.action == "updated" then
        { res with orders_updated := res.orders_updated + 1 }
      else if r.action == "skipped" then
        { res with orders_skipped := res.orders_skipped + 1 }
      else res
    (st', res)
  | .error (.dataIntegrity m) =>
    (st, { res with orders_failed := res.orders_failed + 1,
                    critical_issues := res.critical_issues ++ [m] })
  | .error _ =>
    (st, { res with orders_failed := res.orders_failed + 1 })

/-- Embeds `OrderSyncService._process_single_order_safe`: structural guard, date
extraction (`lineItems[0].boughtAt`, then `updatedAt`, then the event's
`occurredAt`, then now — timestamps are numeric in every verified input),
source-dependent revision extraction with the timestamp fallback, then
the protected write. -/
def process_single_order_safe (st : Store) (tokenId : Nat) (item : SyncItem)
    (now : Int) : Except PyErr (Store × UpdateResult) :=
  if !strTruthy item.order_id || !item.order.truthy then
    .ok (st, ⟨false, "failed", "Некорректная структура данных", item.order_id.getD ""⟩)
  else
    let oid := item.order_id.getD ""
    let orderData := item.order
    let occurredAt : Option Int :=
      if item.source == "events_api" then
        match (item.event.getD (.obj [])).get "occurredAt" with
        | some (.num t) => some t
        | _ => none
      else none
    let fromItems : Option Int :=
      match orderData.get "lineItems" with
      | some (.arr (first :: _)) =>
        (match first.get "boughtAt" with
         | some (.num t) => some t
         | _ => none)
      | _ => none
    let fromUpdated : Option Int :=
      match fromItems with
      | some t => some t
      | none =>
        match orderData.get "updatedAt" with
        | some (.num t) => some t
        | _ => none
    let orderDate : Int :=
      match fromUpdated with
      | some t => t
      | none => occurredAt.getD now
    let occurred : Int := occurredAt.getD orderDate
    let revision0 : Option String :=
      if item.source == "events_api" then
        match orderData.getD "checkoutForm" (.obj []) with
        | .obj cf =>
          (match (Json.obj cf).get "revision" with
           | some (.str s) => some s
           | _ => none)
        | _ => none
      else
        match orderData.get "revision" with
        | some (.str s) => some s
        | _ => none
    let revision := if strTruthy revision0 then revision0.getD "" else toString occurred
    safe_order_update st tokenId oid orderData (some revision) (some orderDate) now

/-- One iteration of the `for data_item in orders_data` loop of
`OrderSyncService.sync_orders_safe` (source lines 147-300): the
checkout-forms branch (order dedup then direct processing) and the
events branch (event dedup, unconditional audit save, order dedup,
revision short-circuit, detail fetch with failure hand-off).  Returns the
updated store, the updated counters, and the upstream calls made. -/
def processItem (st : Store) (res : SyncResult) (api : UpstreamApi)
    (userId : String) (tokenId : Nat) (now : Int) (item : SyncItem) :
    Store × SyncResult × List String :=
  if item.source == "checkout_forms_api" then
    let dedup :=
      strTruthy item.order_id &&
      !(should_process_order st (item.order_id.getD "") tokenId).should_process
    if dedup then
      (st, { res with orders_deduplicated := res.orders_deduplicated + 1 }, [])
    else
      let (st', res') := countProcessed st res
        (process_single_order_safe st tokenId item now)
      (st', res', [])
  else
    let evInfo := item.event.getD (.obj [])
    let evId : Option String :=
      match evInfo.get "id" with
      | some (.str s) => some s
      | _ => none
    let dedupEvent :=
      strTruthy evId &&
      !(should_process_event st (evId.getD "") tokenId).should_process
    if dedupEvent then
      (st, { res with events_deduplicated := res.events_deduplicated + 1 }, [])
    else
      let st := save_all_events_to_db st tokenId item now
      let res := { res with events_saved := res.events_saved + 1 }
      if !strTruthy item.order_id then (st, res, [])
      else
        let oid := item.order_id.getD ""
        if !(should_process_order st oid tokenId).should_process then
          (st, { res with orders_deduplicated := res.orders_deduplicated + 1 }, [])
        else
          let cf := item.order.getD "checkoutForm" (.obj [])
          let rev0 : Option String :=
            match cf.get "revision" with
            | some (.str s) => some s
            | _ => none
          let newRevision :=
            if strTruthy rev0 then rev0.getD ""
            else
              match evInfo.get "occurredAt" with
              | some (.num t) => toString t
              | _ => toString now
          let action := check_order_needs_update st tokenId oid newRevision
          if action == "skip" then
            (st, { res with orders_skipped := res.orders_skipped + 1 }, [])
          else
            let (details, attempts) :=
              get_order_details_from_api st api userId tokenId now oid
            let trace := List.replicate attempts ("details:" ++ oid)
            match details with
            | some od =>
              let fullItem : SyncItem := ⟨none, od, some oid, "full_api_details"⟩
              let (st', res') := countProcessed st res
                (process_single_order_safe st tokenId fullItem now)
              (st', res', trace)
            | none =>
              let st := save_failed_order st tokenId oid action
                "Не удалось получить детали заказа через API после retry"
                "api_fetch_failed" (some newRevision) now
              (st, { res with orders_failed := res.orders_failed + 1 }, trace)

/-- Embeds `OrderSyncService.sync_orders_safe` specialised to the incremental
(event-feed) strategy, i.e. `sync_from_date = None` (source lines 96-350
minus the dead checkout-forms fetch branch): circuit-breaker pre-check,
cursor resolution (statistics endpoint on a fresh token), one event
listing, the per-item loop, SyncHistory creation, the batch anomaly pass
with the `"🚨"` critical filter, the final health score, and SyncHistory
finalisation.  Returns the final store, the result counters, and the
trace of upstream calls in order. -/
def syncOrdersSafeIncremental (st : Store) (api : UpstreamApi)
    (userId : String) (tokenId : Nat) (fullSync : Bool)
    (syncToDate : Option Int) (now : Int) : Store × SyncResult × List String :=
  let res0 := initSyncResult (if fullSync then "full" else "incremental")
  match should_pause_sync st now with
  | .error e => (st, { res0 with critical_issues := [pyErrStr e] }, [])
  | .ok true =>
    (st, { res0 with paused_due_to_anomalies := true,
                     critical_issues :=
                       ["Синхронизация остановлена из-за аномалий в данных"] }, [])
  | .ok false =>
    let (st1, fromId, trace1) :=
      if fullSync then (st, none, [])
      else get_last_event_id_from_db st api tokenId now
    let (items, trace2) := fetch_order_events_safe st1 api userId tokenId now fromId syncToDate
    if items.isEmpty then (st1, res0, trace1 ++ trace2)
    else
      let (st2, res1, trace3) := items.foldl
        (fun (acc : Store × SyncResult × List String) item =>
          let (s, r, tr) := processItem acc.1 acc.2.1 api userId tokenId now item
          (s, r, acc.2.2 ++ tr)) (st1, res0, [])
      let hist : SyncHistRow := ⟨st2.nextId, tokenId, "running", 0, 0, 0⟩
      let st3 := { st2 with histories := st2.histories ++ [hist], nextId := st2.nextId + 1 }
      let anomalies := detect_data_anomalies items
      let res2 := { res1 with warnings := res1.warnings ++ anomalies }
      let critical := anomalies.filter (fun a => pyInStr "🚨" a)
      if !critical.isEmpty then
        (st3, { res2 with critical_issues :=
          critical ++ ["Критические аномалии в данных"] },
         trace1 ++ trace2 ++ trace3)
      else
        match check_data_health st3.events 1 now with
        | .error e =>
          (st3, { res2 with critical_issues := res2.critical_issues ++ [pyErrStr e] },
           trace1 ++ trace2 ++ trace3)
        | .ok m =>
          let res3 := { res2 with data_quality_score := 1 - m.anomaly_score }
          let hist' := { hist with
                         sync_status := "completed"
                         orders_processed := res3.orders_processed
                         orders_added := res3.orders_created
                         orders_updated := res3.orders_updated }
          let newHists := st3.histories.map (fun h => if h.rid == hist'.rid then hist' else h)
          let st4 := { st3 with histories := newHists }
          (st4, { res3 with success := true }, trace1 ++ trace2 ++ trace3)

/-- A valid, active, unexpired token (surrogate id 1) used by the concrete
runs below (`now` is 0 in all of them). -/
def tokA : UserTokenRow := ⟨1, "u", true, 1000000⟩

/-- A second independent token (surrogate id 2). -/
def tokB : UserTokenRow := ⟨2, "u", true, 1000000⟩

/-- Event-feed order fragment: `checkoutForm` with id and revision, plus
buyer and line items (the shape delivered by the events endpoint). -/
def evOrderJson (oid rev : String) : Json :=
  .obj [("checkoutForm", .obj [("id", .str oid), ("revision", .str rev)]),
        ("buyer", .obj [("email", .str "b@example.com")]),
        ("lineItems", .arr [.obj [("offerId", .str "off1")]])]

/-- A raw upstream event: id, type, occurrence time and the embedded
order fragment. -/
def rawEvent (eid typ : String) (t : Int) (oid rev : String) : Json :=
  .obj [("id", .str eid), ("type", .str typ), ("occurredAt", .num t),
        ("order", evOrderJson oid rev)]

/-- A checkout-form detail payload as returned by the detail endpoint:
root id, status, revision, buyer, line items with a purchase date. -/
def detailJson (oid rev : String) : Json :=
  .obj [("id", .str oid), ("status", .str "READY_FOR_PROCESSING"),
        ("revision", .str rev),
        ("buyer", .obj [("email", .str "b@example.com"), ("firstName", .str "Jan")]),
        ("lineItems", .arr [.obj [("boughtAt", .num (-200))]])]

/-- Store of the happy-path scenario: one fresh token, no orders, no
events. -/
def stC1 : Store := ⟨[tokA], [], [], [], [], 100⟩

/-- Upstream of the happy-path scenario: the statistics endpoint yields
cursor `E0`; from that cursor three events arrive for two distinct orders
(`A` with revision `r1`, `B` with `r2`, then `A` again with the higher
revision `r3`); the detail endpoint serves both orders. -/
def apiC1 : UpstreamApi :=
  { eventStats := some ("E0", -100),
    listEvents := fun c =>
      match c with
      | some "E0" => [rawEvent "E1" "READY_FOR_PROCESSING" (-90) "A" "r1",
                      rawEvent "E2" "READY_FOR_PROCESSING" (-80) "B" "r2",
                      rawEvent "E3" "ORDER_STATUS_CHANGED" (-70) "A" "r3"]
      | _ => [],
    orderDetails := fun oid _ =>
      if oid = "A" then .ok (detailJson "A" "r1")
      else if oid = "B" then .ok (detailJson "B" "r2")
      else .httpStatus 404 }

/-- The happy-path incremental run. -/
def c1run : Store × SyncResult × List String :=
  syncOrdersSafeIncremental stC1 apiC1 "u" 1 false none 0

/-- A minimal valid checkout-form payload carrying no `revision` key. -/
def c2payload : Json := .obj [("id", .str "CF1")]

/-- Store of the idempotence scenario: one token, empty tables. -/
def stC2 : Store := ⟨[tokA], [], [], [], [], 10⟩

/-- The store `safe_order_update` produces from `stC2` when it creates
order `CF1`: the payload is stored verbatim (no embedded revision). -/
def stC2afterCreate : Store :=
  ⟨[tokA], [⟨10, 1, "CF1", c2payload, 0, false, 0⟩], [], [], [], 11⟩

/-- Payload stored for token 1 in the cross-token scenario (contains its
revision `rA`, as a checkout-form payload does). -/
def c3existingPayload : Json := .obj [("id", .str "123"), ("revision", .str "rA")]

/-- New payload arriving for the same natural order id under token 2. -/
def c3newPayload : Json := .obj [("id", .str "123")]

/-- Store of the cross-token scenario: both tokens, and order `123`
already ingested under token 1. -/
def stC3 : Store :=
  ⟨[tokA, tokB], [⟨5, 1, "123", c3existingPayload, 0, false, 0⟩], [], [], [], 10⟩

/-- Existing payload with full buyer data (email present). -/
def c4existing : Json :=
  .obj [("id", .str "D1"), ("revision", .str "r1"),
        ("buyer", .obj [("email", .str "old@x.y")])]

/-- New valid payload for the same order that is missing `buyer.email`. -/
def c4new : Json :=
  .obj [("id", .str "D1"), ("buyer", .obj [("firstName", .str "Jan")])]

/-- Store of the no-regression-blocking scenario: order `D1` exists for
token 1 with full buyer data. -/
def stC4 : Store := ⟨[tokA], [⟨5, 1, "D1", c4existing, 0, false, 0⟩], [], [], [], 10⟩

/-- An `OrderEvent` row whose payload is an empty dict: every required
field is missing, so the one-hour health window over it reports a 100%
missing-data ratio. -/
def badEventRow : OrderEventRow := ⟨0, "Z", 1, "X", -10, .obj [], none, false⟩

/-- Store of the circuit-breaker witness: one unhealthy event in the last
hour. -/
def stC5 : Store := ⟨[tokA], [], [badEventRow], [], [], 10⟩

/-- The health metrics `check_data_health` computes over `stC5` at time 0
with a one-hour window. -/
def c5metrics : HealthMetrics :=
  ⟨1, 1, 1, 1, 1, -31536000,
   ["Отсутствуют поля: id, status, buyer, lineItems",
    "Пустые поля покупателя: email, firstName",
    "Отсутствуют товары в заказе"]⟩

/-- Event-feed order fragment with no buyer block (fails the batch
quality check while passing the structure check). -/
def evOrderNoBuyer (oid rev : String) : Json :=
  .obj [("checkoutForm", .obj [("id", .str oid), ("revision", .str rev)]),
        ("lineItems", .arr [.obj [("offerId", .str "off1")]])]

/-- The single event of the critical-anomaly scenario. -/
def rawEventC6 : Json :=
  .obj [("id", .str "F1"), ("type", .str "READY_FOR_PROCESSING"),
        ("occurredAt", .num (-90)), ("order", evOrderNoBuyer "C" "q1")]

/-- Upstream of the critical-anomaly scenario. -/
def apiC6 : UpstreamApi :=
  { eventStats := some ("F0", -100),
    listEvents := fun c =>
      match c with
      | some "F0" => [rawEventC6]
      | _ => [],
    orderDetails := fun oid _ =>
      if oid = "C" then .ok (detailJson "C" "q1") else .httpStatus 404 }

/-- Store of the critical-anomaly scenario: fresh token, empty tables. -/
def stC6 : Store := ⟨[tokA], [], [], [], [], 100⟩

/-- The run of the critical-anomaly scenario. -/
def c6run : Store × SyncResult × List String :=
  syncOrdersSafeIncremental stC6 apiC6 "u" 1 false none 0

/-- The batch the critical-anomaly run fetches and analyses. -/
def c6items : List SyncItem :=
  (fetch_order_events_safe stC6 apiC6 "u" 1 0 (some "F0") none).1

/-- A pending failed-order row with the given `retry_count` and the
default `max_retries = 5`. -/
def c7row (k : Nat) : FailedRow :=
  ⟨0, "O", 1, "api_error", "m", "create", none, "pending", k, 5, none, none⟩

/-- Upstream of the permanent-error scenario, parameterised by the HTTP
status returned for order `X` on every attempt: two events arrive (orders
`X` then `Y`); `Y`'s details succeed. -/
def apiC8 (c : Nat) : UpstreamApi :=
  { eventStats := some ("G0", -100),
    listEvents := fun cur =>
      match cur with
      | some "G0" => [rawEvent "G1" "READY_FOR_PROCESSING" (-90) "X" "s1",
                      rawEvent "G2" "READY_FOR_PROCESSING" (-80) "Y" "s2"]
      | _ => [],
    orderDetails := fun oid _ =>
      if oid = "Y" then .ok (detailJson "Y" "s2") else .httpStatus c }

/-- Store of the permanent-error scenario: fresh token, empty tables. -/
def stC8 : Store := ⟨[tokA], [], [], [], [], 100⟩

/-- The permanent-error run for a given status code on order `X`. -/
def c8run (c : Nat) : Store × SyncResult × List String :=
  syncOrdersSafeIncremental stC8 (apiC8 c) "u" 1 false none 0

/-- Store of the unknown-token witness: no `UserToken` rows at all, yet a
matching order row and event row exist. -/
def stC10 : Store :=
  ⟨[], [⟨0, 7, "123", .obj [("id", .str "123")], 0, false, 0⟩],
   [⟨1, "123", 7, "T", -10, .obj [], some "EV9", false⟩], [], [], 10⟩

/-- Claim C9: for every call of `safe_order_update` with a falsy (empty or
missing) order id, the result is `success = False` with action `"none"`
and a non-empty message, and the store is returned unchanged — no order
row is read or written. -/
theorem c9_empty_order_id (st : Store) (tokenId : Nat) (newData : Json)
    (rev : Option String) (orderDate : Option Int) (now : Int) :
    safe_order_update st tokenId "" newData rev orderDate now =
      .ok (st, ⟨false, "none", "order_id пустой или None: ", ""⟩) ∧
    "order_id пустой или None: " ≠ "" := by
  exact ⟨rfl, by decide⟩

/-- Claim C10: when no `UserToken` row matches the requesting token id,
both deduplication gates fail closed with the token-not-found reason,
regardless of the order and event tables. -/
theorem c10_unknown_token_gate (st : Store) (oid eid : String) (tokenId : Nat)
    (h : st.tokens.find? (fun t => t.tid == tokenId) = none) :
    should_process_order st oid tokenId = ⟨false, "Токен не найден"⟩ ∧
    should_process_event st eid tokenId = ⟨false, "Токен не найден"⟩ := by
  constructor
  · unfold should_process_order
    rw [h]
  · unfold should_process_event
    rw [h]

/-- Witness for C10 at a concrete store that does contain a matching
order row and a matching event row, but no token row. -/
theorem c10_unknown_token_gate_witness :
    should_process_order stC10 "123" 7 = ⟨false, "Токен не найден"⟩ ∧
    should_process_event stC10 "EV9" 7 = ⟨false, "Токен не найден"⟩ :=
  c10_unknown_token_gate stC10 "123" "EV9" 7 (by decide)

/-- Claim C7 counterexample: a pending row with `retry_count = 0` and
`max_retries = 5` gets a next-retry offset of 300 seconds (5 minutes)
from `mark_for_retry`, not the claimed 60 seconds (1 minute) — the retry
count is incremented before the backoff table is indexed. -/
theorem c7_backoff_counterexample :
    (mark_for_retry (c7row 0) "m2" "t2" 0).next_retry_at = some 300 ∧
    ¬ (mark_for_retry (c7row 0) "m2" "t2" 0).next_retry_at = some 60 := by
  decide

/-- Claim C7 as amended: with `max_retries = 5`, `mark_for_retry` on rows
with `retry_count` 0, 1, 2, 3 at call time computes next-retry offsets of
5, 15, 60, 240 minutes from the call; at `retry_count` 4 or 5 the row is
abandoned and `next_retry_at` cleared. -/
theorem c7_backoff_amended (now : Int) (msg typ : String) :
    (mark_for_retry (c7row 0) msg typ now).next_retry_at = some (now + 5 * 60) ∧
    (mark_for_retry (c7row 0) msg typ now).status = "pending" ∧
    (mark_for_retry (c7row 1) msg typ now).next_retry_at = some (now + 15 * 60) ∧
    (mark_for_retry (c7row 2) msg typ now).next_retry_at = some (now + 60 * 60) ∧
    (mark_for_retry (c7row 3) msg typ now).next_retry_at = some (now + 240 * 60) ∧
    (mark_for_retry (c7row 4) msg typ now).next_retry_at = none ∧
    (mark_for_retry (c7row 4) msg typ now).status = "abandoned" ∧
    (mark_for_retry (c7row 5) msg typ now).next_retry_at = none ∧
    (mark_for_retry (c7row 5) msg typ now).status = "abandoned" :=
  ⟨rfl, rfl, rfl, rfl, rfl, rfl, rfl, rfl, rfl⟩

/-- Claim C2 (code-bug evaluation): calling `safe_order_update` twice with
the same `(order_id, payload, revision)` on a payload that does not carry
a top-level `revision` key yields `"created"` first — but the revision
argument is discarded by `_create_new_order`, so the stored payload has no
embedded revision — and the second call, instead of returning
`"skipped"`, reaches the merge path and raises `AttributeError` because
the `Order` model has no `buyer_data` attribute. -/
theorem c2_idempotence_breakdown :
    safe_order_update stC2 1 "CF1" c2payload (some "rev1") none 0 =
      .ok (stC2afterCreate, ⟨true, "created", "Заказ created успешно", "CF1"⟩) ∧
    (stC2afterCreate.orders.map (fun o => o.order_data.hasKey "revision")) = [false] ∧
    safe_order_update stC2afterCreate 1 "CF1" c2payload (some "rev1") none 0 =
      .error (.attrError "Order object has no attribute buyer_data") :=
  ⟨rfl, by decide, rfl⟩

/-- Claim C3 (code-bug evaluation): after token 1 ingested order `123`,
the deduplication gate for token 2 does proceed (it is token-scoped), but
`safe_order_update` under token 2 looks the order up by
`allegro_order_id` alone and finds token 1's row: with an equal revision
it returns `"skipped"` leaving the single existing row untouched, and
with a different revision it enters the merge path and raises — in
neither case is a second, independent row created for token 2. -/
theorem c3_cross_token_not_independent :
    should_process_order stC3 "123" 2 = ⟨true, "Новый заказ для токена"⟩ ∧
    safe_order_update stC3 2 "123" c3newPayload (some "rA") none 0 =
      .ok (stC3, ⟨true, "skipped", "Версия rA уже существует в базе", "123"⟩) ∧
    safe_order_update stC3 2 "123" c3newPayload (some "rB") none 0 =
      .error (.attrError "Order object has no attribute buyer_data") :=
  ⟨by decide, rfl, rfl⟩

/-- Claim C4 (code-bug evaluation): with an existing order whose stored
payload has a truthy `buyer.email` and a valid new payload missing it
(and a differing revision so the optimistic check does not skip),
`safe_order_update` does not return `success` with action `"updated"` —
it raises `AttributeError`, because `_merge_order_data` reads the
nonexistent `Order.buyer_data` attribute before any merging happens. -/
theorem c4_update_merge_raises :
    Json.getBool (c4existing.getD "buyer" (.obj [])) "email" = true ∧
    Json.getBool (c4new.getD "buyer" (.obj [])) "email" = false ∧
    safe_order_update stC4 1 "D1" c4new (some "r2") none 0 =
      .error (.attrError "Order object has no attribute buyer_data") :=
  ⟨by decide, by decide, rfl⟩

unseal Rat.mul Rat.inv Rat.add Rat.sub in
/-- Claim C1 (code-bug evaluation): on the fresh-token happy-path
scenario (starting-point cursor fetched, then 3 events for 2 distinct
orders with increasing revisions, all detail fetches succeeding) the run
finishes with `orders_created = 2` but `orders_updated = 0`,
`orders_deduplicated = 1` and `events_saved = 3`: the third event's order
already exists for the token, so the deduplication gate drops it before
the revision comparison can mark it for update, and the starting-point
row is not counted by the `events_saved` counter. -/
theorem c1_incremental_happy_path_run :
    (c1run.2.1.orders_created = 2 ∧ c1run.2.1.orders_updated = 0 ∧
     c1run.2.1.orders_deduplicated = 1 ∧ c1run.2.1.events_saved = 3 ∧
     c1run.2.1.orders_processed = 2 ∧ c1run.2.1.success = true) ∧
    c1run.2.2 = ["event-stats", "events", "details:A", "details:B"] := by
  decide

unseal Rat.mul Rat.inv Rat.add Rat.sub in
/-- Claim C6 (code-bug evaluation): a batch whose anomaly list contains a
critical-tier `"❌ КРИТИЧНО"` message does not abort the run:
`sync_orders_safe` filters the anomalies for the substring `"🚨"`, which
no string produced by `DataMonitoringService.detect_data_anomalies`
contains, so the filter is empty, no pause exception is raised, and the
run completes with `success = true` and empty `critical_issues` (the
anomalies land only in `warnings`). -/
theorem c6_critical_anomaly_does_not_abort :
    (detect_data_anomalies c6items).any (fun a => pyInStr "КРИТИЧНО" a) = true ∧
    (detect_data_anomalies c6items).filter (fun a => pyInStr "🚨" a) = [] ∧
    c6run.2.1.success = true ∧
    c6run.2.1.paused_due_to_anomalies = false ∧
    c6run.2.1.critical_issues = [] ∧
    c6run.2.1.warnings = detect_data_anomalies c6items := by
  decide

unseal Rat.mul Rat.inv Rat.add Rat.sub in
/-- Claim C8 counterexample: a 404 on the detail fetch does not drop the
item — the run records a pending `FailedOrderProcessing` row for it —
and a 401 does not abort the token's run: the run continues, creates the
other order and finishes successfully. -/
theorem c8_permanent_error_counterexample :
    ((c8run 404).1.failed.map (fun f => (f.order_id, f.status))) = [("X", "pending")] ∧
    (c8run 401).2.1.success = true ∧
    (c8run 401).2.1.orders_created = 1 := by
  decide

unseal Rat.mul Rat.inv Rat.add Rat.sub in
/-- Claim C8 as amended: a permanent detail-fetch error (404, 401 or 403)
is not retried inline — exactly one attempt is made — and in every case
the item is handed to `FailedOrderProcessing` (a pending row with
`retry_count = 0` is recorded) while the run continues with the next
item and finishes successfully, creating the other order. -/
theorem c8_permanent_error_amended (c : Nat)
    (h : c = 404 ∨ c = 401 ∨ c = 403) :
    (c8run c).2.2.count "details:X" = 1 ∧
    ((c8run c).1.failed.map (fun f => (f.order_id, f.status, f.retry_count))) =
      [("X", "pending", 0)] ∧
    (c8run c).2.1.orders_failed = 1 ∧
    (c8run c).2.1.orders_created = 1 ∧
    (c8run c).2.1.success = true := by
  rcases h with rfl | rfl | rfl <;> decide

unseal Rat.mul Rat.inv Rat.add Rat.sub in
/-- Witness for the amended C8 at the concrete status 404. -/
theorem c8_permanent_error_amended_witness :
    (c8run 404).2.2.count "details:X" = 1 ∧
    ((c8run 404).1.failed.map (fun f => (f.order_id, f.status, f.retry_count))) =
      [("X", "pending", 0)] ∧
    (c8run 404).2.1.orders_failed = 1 ∧
    (c8run 404).2.1.orders_created = 1 ∧
    (c8run 404).2.1.success = true :=
  c8_permanent_error_amended 404 (Or.inl rfl)

/-- Claim C5: `should_pause_sync` evaluates the health metrics over the
last 1 hour and returns true exactly when the anomaly score is ≥ 0.9, or
the missing-data ratio is ≥ 0.5, or the (deduplicated) critical-issue
count is ≥ 10; and whenever it returns true, the sync run aborts
immediately with `paused_due_to_anomalies = true`, an unchanged store and
an empty upstream-call trace — no API call is made. -/
theorem c5_circuit_breaker (st : Store) (now : Int) (m : HealthMetrics)
    (hm : check_data_health st.events 1 now = .ok m) :
    should_pause_sync st now =
      .ok (decide ((9 : ℚ)/10 ≤ m.anomaly_score) ||
           decide ((1 : ℚ)/2 ≤ m.missing_data_ratio) ||
           decide (10 ≤ m.critical_issues.length)) ∧
    (∀ (api : UpstreamApi) (userId : String) (tokenId : Nat) (fullSync : Bool)
       (syncToDate : Option Int),
       should_pause_sync st now = .ok true →
       syncOrdersSafeIncremental st api userId tokenId fullSync syncToDate now =
         (st,
          { initSyncResult (if fullSync then "full" else "incremental") with
            paused_due_to_anomalies := true
            critical_issues := ["Синхронизация остановлена из-за аномалий в данных"] },
          [])) := by
  constructor
  · unfold should_pause_sync
    rw [hm]
    rfl
  · intro api userId tokenId fullSync syncToDate hp
    simp only [syncOrdersSafeIncremental, hp]

unseal Rat.mul Rat.inv Rat.add Rat.sub in
/-- Witness for C5: one unhealthy event inside the one-hour window pushes
the missing-data ratio to 1 ≥ 0.5, so the breaker opens and the run
aborts untouched. -/
theorem c5_circuit_breaker_witness :
    should_pause_sync stC5 0 = .ok true ∧
    syncOrdersSafeIncremental stC5 apiC6 "u" 1 false none 0 =
      (stC5,
       { initSyncResult "incremental" with
         paused_due_to_anomalies := true
         critical_issues := ["Синхронизация остановлена из-за аномалий в данных"] },
       []) := by
  have h := c5_circuit_breaker stC5 0 c5metrics (by rfl)
  exact ⟨h.1, h.2 apiC6 "u" 1 false none h.1⟩
